import Mathlib

/-!
Shallow embedding of the user-identity backend (package `services`,
file `src/services/services.go`), together with the collaborators it
calls (models, repository, bcrypt, Redis), which are modelled
abstractly.  The services-layer control flow is translated
line-by-line from the Go source; the collaborators appear either as
explicit function parameters (hashing, serialization, the cache
transport outcome) or as a small in-memory store modelled from the
repository contract stated in the spec.
-/

namespace Gopher

/-- The `models.User` record.  Field names follow the Go struct as used by
`services.go`: `id` (assigned by the store), `FullName`, `Username`,
`Password` (holds the bcrypt hash once stored), `Status`, `Role`,
`ProfilePicture`.  `Status` and `Role` are string-typed in the source. -/
structure User where
  id : String
  FullName : String
  Username : String
  Password : String
  Status : String
  Role : String
  ProfilePicture : String
deriving DecidableEq, Repr

/-- Modelled from the spec: `models.Active`, one of the two values of the
status enum declared in the (out-of-scope) models package. -/
def Active : String := "Active"

/-- Modelled from the spec: `models.Inactive`. -/
def Inactive : String := "Inactive"

/-- Modelled from the spec: `models.Admin`, one of the two values of the
role enum declared in the models package. -/
def Admin : String := "Admin"

/-- Modelled from the spec: `models.Operator`. -/
def Operator : String := "Operator"

/-- Constant `cacheExpiration = 10 * time.Minute`, in nanoseconds (Go
`time.Duration` units). -/
def cacheExpiration : Nat := 10 * 60 * 1000000000

/-- The cache key `cacheKey := userCachePrefix + userID`, with the constant
string `"user:"` in front of the id. -/
def userCacheKey (userID : String) : String := "user:" ++ userID

/-- Go `^[a-zA-Z]+$` on the username: nonempty and every character an ASCII
letter (`Char.isAlpha` covers exactly `a`-`z` and `A`-`Z`). -/
def usernameMatches (s : String) : Bool :=
  s.length > 0 && s.toList.all (fun c => c.isAlpha)

/-- Outcome of a repository read (`repository.GetUserByID` /
`GetUserByUsername` return `(*models.User, error)`): a user, the Go
`(nil, nil)` not-found answer, or a store error. -/
inductive RepoResult where
  | found (u : User)
  | notFound
  | fail (msg : String)
deriving DecidableEq, Repr

/-- Outcome of the Redis `Get`: a hit carrying the cached string, the
`redis.Nil` miss sentinel, or any other transport error. -/
inductive CacheReadResult where
  | hit (v : String)
  | redisNil
  | fail (msg : String)
deriving DecidableEq, Repr

/-- A `(*models.User, error)` pair as returned by `GetUserByID` and
`UpdateUserByID`: a user with nil error, `(nil, nil)` for not found, or a
non-nil error. -/
inductive UserResult where
  | user (u : User)
  | notFound
  | fail (msg : String)
deriving DecidableEq, Repr

/-- Environment of one `GetUserByID` call: the outcome of the cache read
for this key, the deserialization and serialization contracts of the
models package, the repository read, and whether the cache `Set`
transport succeeds (the source only logs that outcome). -/
structure GetEnv where
  cacheRead : CacheReadResult
  deserializeUser : String → Option User
  serialize : User → Option String
  repoGetUserByID : String → RepoResult
  cacheSetOk : Bool

/-- Side effects observable from one `GetUserByID` call: whether the Redis
`Get` was issued, whether the repository was read, and the attempted cache
write (key, serialized value, TTL) if any. -/
structure GetEffects where
  cacheReadAttempted : Bool
  repoRead : Bool
  cacheWrite : Option (String × String × Nat)
deriving DecidableEq, Repr

/-- The fall-through path of `GetUserByID` (source lines 121-145): read
the repository, and on a found user attempt to serialize and cache it;
a serialization failure is logged and skips the write, and the success of the write
itself is irrelevant to the returned value. -/
def getFromStore (env : GetEnv) (cacheKey userID : String) :
    UserResult × GetEffects :=
  match env.repoGetUserByID userID with
  | .fail msg => (.fail msg, ⟨true, true, none⟩)
  | .notFound => (.notFound, ⟨true, true, none⟩)
  | .found u =>
    match env.serialize u with
    | none => (.user u, ⟨true, true, none⟩)
    | some s => (.user u, ⟨true, true, some (cacheKey, s, cacheExpiration)⟩)

/-- Function `services.GetUserByID` (source lines 97-146).  Rejects the empty id,
then tries the cache: a hit that deserializes is returned immediately;
a hit that does not deserialize, a `redis.Nil` miss, and any other cache
error all fall through to the repository path. -/
def GetUserByID (env : GetEnv) (userID : String) : UserResult × GetEffects :=
  if userID = "" then
    (.fail "user ID must be provided", ⟨false, false, none⟩)
  else
    let cacheKey := userCacheKey userID
    match env.cacheRead with
    | .hit v =>
      match env.deserializeUser v with
      | some u => (.user u, ⟨true, false, none⟩)
      | none => getFromStore env cacheKey userID
    | .redisNil => getFromStore env cacheKey userID
    | .fail _ => getFromStore env cacheKey userID

/-- Modelled from the spec: the User Repository as an in-memory durable
store (the repository package is out of scope, specified only through its
contract).  `nextId` feeds the store-assigned opaque id. -/
structure Store where
  users : List User
  nextId : Nat
deriving DecidableEq, Repr

/-- Modelled from the spec: `repository.GetUserByID` on the in-memory
store. -/
def Store.getById (s : Store) (userID : String) : Option User :=
  s.users.find? (fun u => u.id == userID)

/-- Modelled from the spec: `repository.CreateUser` persists the record
and assigns the opaque id; every other field is stored unchanged. -/
def Store.create (s : Store) (u : User) : User × Store :=
  let assigned : User := { u with id := "u" ++ toString s.nextId }
  (assigned, ⟨s.users ++ [assigned], s.nextId + 1⟩)

/-- Modelled from the spec: `repository.UpdateUser` replaces the stored
record with the same id. -/
def Store.update (s : Store) (u : User) : Store :=
  ⟨s.users.map (fun v => if v.id == u.id then u else v), s.nextId⟩

/-- Modelled from the spec: `repository.DeleteUser` removes the record. -/
def Store.deleteUser (s : Store) (u : User) : Store :=
  ⟨s.users.filter (fun v => v.id != u.id), s.nextId⟩

/-- The repository read of a concrete store, in the shape `GetUserByID`
consumes. -/
def storeRepoGet (s : Store) : String → RepoResult := fun userID =>
  match s.getById userID with
  | some u => .found u
  | none => .notFound

/-- Result of `services.CreateUser`: the returned `(*models.User, error)`
pair, the store after the call, and whether bcrypt hashing was reached
(validation must fail before any hashing or store call). -/
structure CreateOutcome where
  result : Except String User
  store : Store
  hashAttempted : Bool
deriving Repr

/-- Function `services.CreateUser` (source lines 30-83).  Validation order follows
the source: the non-empty check on all three text fields, the username
character-class regex, the password length bounds (8-15), status
membership, role membership; only then bcrypt hashing and the repository
create.  The new record copies `FullName`, `Username`, `Status`, `Role`
and the hashed password; `ProfilePicture` is not copied (zero value). -/
def CreateUser (hash : String → Except String String) (s : Store)
    (body : User) : CreateOutcome :=
  if body.FullName == "" || body.Username == "" || body.Password == "" then
    ⟨.error "all fields must be provided", s, false⟩
  else if !usernameMatches body.Username then
    ⟨.error "username must contain only characters", s, false⟩
  else if body.Password.length < 8 || body.Password.length > 15 then
    ⟨.error "password must be between 8 and 15 characters", s, false⟩
  else if body.Status != Active && body.Status != Inactive then
    ⟨.error "invalid status value", s, false⟩
  else if body.Role != Admin && body.Role != Operator then
    ⟨.error "invalid role value", s, false⟩
  else
    match hash body.Password with
    | .error e => ⟨.error e, s, true⟩
    | .ok hashedPassword =>
      let user : User :=
        { id := "", FullName := body.FullName, Username := body.Username,
          Password := hashedPassword, Status := body.Status,
          Role := body.Role, ProfilePicture := "" }
      let saved := s.create user
      ⟨.ok saved.1, saved.2, true⟩

/-- Combined mutable state threaded through the write-path operations:
the durable store plus the cache contents (key, value, TTL triples).
`UpdateUserByID` and `DeleteUserByID` contain no cache operation in the
source, so they can only pass the cache component through. -/
structure SysState where
  store : Store
  cache : List (String × String × Nat)
deriving DecidableEq, Repr

/-- Function `services.UpdateUserByID` (source lines 149-199).  Rejects the empty
id, fetches the current record directly from the repository (no cache
read), overwrites exactly the non-empty fields of the body in source
order (`FullName`, `Username`, bcrypt-hashed `Password`, `Status`,
`Role`; `ProfilePicture` is never touched here), persists via
`repository.UpdateUser`, and returns the updated record.  A bcrypt
failure aborts before any store write. -/
def UpdateUserByID (hash : String → Except String String) (st : SysState)
    (userID : String) (body : User) : UserResult × SysState :=
  if userID = "" then
    (.fail "user ID must be provided", st)
  else
    match st.store.getById userID with
    | none => (.notFound, st)
    | some u0 =>
      let u1 := if body.FullName != "" then
        { u0 with FullName := body.FullName } else u0
      let u2 := if body.Username != "" then
        { u1 with Username := body.Username } else u1
      match (if body.Password != "" then (hash body.Password).map some
             else .ok none) with
      | .error e => (.fail e, st)
      | .ok hp? =>
        let u3 := match hp? with
          | some hp => { u2 with Password := hp }
          | none => u2
        let u4 := if body.Status != "" then
          { u3 with Status := body.Status } else u3
        let u5 := if body.Role != "" then
          { u4 with Role := body.Role } else u4
        (.user u5, ⟨st.store.update u5, st.cache⟩)

/-- Function `services.DeleteUserByID` (source lines 202-225).  Returns the Go
`error` value: `none` models a nil error.  When the repository reports no
such user the source returns `nil` — the same value as after a successful
deletion. -/
def DeleteUserByID (st : SysState) (userID : String) :
    Option String × SysState :=
  if userID = "" then
    (some "user ID must be provided", st)
  else
    match st.store.getById userID with
    | none => (none, st)
    | some u => (none, ⟨st.store.deleteUser u, st.cache⟩)

/-- Function `services.AuthenticateUser` (source lines 228-254).
`compareHashAndPassword hash plain` models a nil error from
`bcrypt.CompareHashAndPassword`; `generateJWTToken` models
`utils.GenerateJWTToken`. -/
def AuthenticateUser (repoGetUserByUsername : String → RepoResult)
    (compareHashAndPassword : String → String → Bool)
    (generateJWTToken : User → Except String String)
    (body : User) : Except String String :=
  match repoGetUserByUsername body.Username with
  | .fail msg => .error msg
  | .notFound => .error "user not found"
  | .found user =>
    if compareHashAndPassword user.Password body.Password then
      match generateJWTToken user with
      | .error _ => .error "failed to generate JWT token"
      | .ok t => .ok t
    else
      .error "incorrect password"

/-- The cache read outcome does not deserialize to a user: a transport
error, a `redis.Nil` miss, or a hit whose payload `deserializeUser`
rejects.  Exactly the situations in which `GetUserByID` falls through to
the repository. -/
def cacheMissLike (env : GetEnv) : Prop :=
  match env.cacheRead with
  | .hit v => env.deserializeUser v = none
  | .redisNil => True
  | .fail _ => True

end Gopher

/-! Concrete sample data used by the closed counterexamples and witnesses. -/

namespace Gopher

/-- A stand-in for bcrypt hashing that always succeeds: it tags the
plaintext.  Any injective-looking tag works, since `services.go` treats the
hash as opaque. -/
def hashW : String → Except String String := fun p => .ok ("H:" ++ p)

/-- The matching stand-in for bcrypt verification. -/
def verifyW : String → String → Bool := fun p h => h == "H:" ++ p

/-- An empty store. -/
def store0 : Store := ⟨[], 1⟩

/-- A stored user with id `u1`. -/
def dinaU : User := ⟨"u1", "Dina", "dina", "H:password1", Active, Admin, ""⟩

/-- Cache environment for a hit that deserializes to `dinaU`. -/
def envW1 : GetEnv :=
  ⟨.hit "blob", fun s => if s == "blob" then some dinaU else none,
   fun _ => some "x", fun _ => .fail "no", true⟩

/-- Cache environment in which every cache operation fails: the read is a
transport error, serialization fails, and the write transport fails too. -/
def envW2 : GetEnv :=
  ⟨.fail "boom", fun _ => none, fun _ => none,
   fun userID => if userID == "u1" then .found dinaU else .notFound, false⟩

/-- A system state holding one user and one live cache entry. -/
def stW8 : SysState := ⟨⟨[dinaU], 2⟩, [("user:u1", "blob", 5)]⟩

/-- A create body whose username violates the character class. -/
def bodyBadUser : User := ⟨"", "Bob", "bob123", "password1", Active, Admin, ""⟩

/-- A stored user for the authentication examples. -/
def aliceU : User := ⟨"u1", "Alice", "alice", "H:correctpass", Active, Admin, ""⟩

/-- Repository lookup by username knowing only `alice`. -/
def authRepoW : String → RepoResult := fun un =>
  if un == "alice" then .found aliceU else .notFound

/-- Password comparison matching `hashW`. -/
def compareW : String → String → Bool := fun h p => h == "H:" ++ p

/-- A token issuer that always succeeds. -/
def tokenW : User → Except String String := fun _ => .ok "token"

/-- A state with no users. -/
def stNo : SysState := ⟨⟨[], 1⟩, []⟩

/-- A state holding exactly `dinaU`. -/
def stYes : SysState := ⟨⟨[dinaU], 2⟩, []⟩

/-- An update body carrying only an out-of-range status. -/
def bodyPending : User := ⟨"", "", "", "", "Pending", "", ""⟩

/-- A stored user with a nonempty profile picture. -/
def dinaPic : User := ⟨"u2", "Dina", "dina", "H:password1", Active, Admin, "old.png"⟩

/-- A state holding exactly `dinaPic`. -/
def stPic : SysState := ⟨⟨[dinaPic], 3⟩, []⟩

/-- An update body carrying only a profile picture. -/
def bodyPic : User := ⟨"", "", "", "", "", "", "new.png"⟩

/-- An update body carrying a new full name and a new password. -/
def bodyMix : User := ⟨"", "NewName", "", "newpass12345", "", "", ""⟩

/-- A valid create body that also carries a profile picture. -/
def bodyW4 : User := ⟨"", "Bob Smith", "bob", "password1", Active, Admin, "pic.png"⟩

/-- The user `CreateUser` builds from `bodyW4`: the profile picture is
dropped. -/
def createdW4 : User := ⟨"u1", "Bob Smith", "bob", "H:password1", Active, Admin, ""⟩

/-- A cold-cache read environment over the store produced by creating
`bodyW4` in `store0`. -/
def readEnvW4 : GetEnv :=
  ⟨.redisNil, fun _ => none, fun _ => none,
   storeRepoGet (CreateUser hashW store0 bodyW4).store, true⟩

/-- A valid create body with an empty profile picture. -/
def bodyOK4 : User := ⟨"", "Eve Adams", "eve", "password1", Active, Operator, ""⟩

/-- A valid create body for the enum-invariant witness. -/
def bodyOK6 : User := ⟨"", "Ann", "ann", "password1", Active, Operator, ""⟩

/-- The user created from `bodyOK6` in `store0`. -/
def annU : User := ⟨"u1", "Ann", "ann", "H:password1", Active, Operator, ""⟩

end Gopher

/-! Theorems settling the claims. -/

namespace Gopher

/-- C10: for the empty-string user id, `GetUserByID`, `UpdateUserByID` and
`DeleteUserByID` each return the validation error `user ID must be
provided` without touching the cache or the repository: the read reports
no cache read, no repository read and no cache write, and the two write
operations return the state unchanged. -/
theorem empty_id_rejected (env : GetEnv) (hash : String → Except String String)
    (st : SysState) (body : User) :
    GetUserByID env "" = (.fail "user ID must be provided", ⟨false, false, none⟩) ∧
    UpdateUserByID hash st "" body = (.fail "user ID must be provided", st) ∧
    DeleteUserByID st "" = (some "user ID must be provided", st) :=
  ⟨rfl, rfl, rfl⟩

/-- C8: the write-path operations never create, invalidate or refresh a
cache entry: for every state, id and body, `UpdateUserByID` and
`DeleteUserByID` leave the cache component exactly as it was, so every
entry present before (with its TTL) is still present after. -/
theorem updateDelete_cache_frame (hash : String → Except String String)
    (st : SysState) (userID : String) (body : User) :
    (UpdateUserByID hash st userID body).2.cache = st.cache ∧
    (DeleteUserByID st userID).2.cache = st.cache ∧
    (∀ e, e ∈ st.cache → e ∈ (UpdateUserByID hash st userID body).2.cache ∧
      e ∈ (DeleteUserByID st userID).2.cache) := by
  have h1 : (UpdateUserByID hash st userID body).2.cache = st.cache := by
    unfold UpdateUserByID
    repeat' split
    all_goals rfl
  have h2 : (DeleteUserByID st userID).2.cache = st.cache := by
    unfold DeleteUserByID
    repeat' split
    all_goals rfl
  exact ⟨h1, h2, fun e he => ⟨h1 ▸ he, h2 ▸ he⟩⟩

/-- Witness for C8: a live cache entry survives both an update and a
delete of the very user it caches. -/
theorem updateDelete_cache_frame_witness :
    ("user:u1", "blob", 5) ∈ (UpdateUserByID hashW stW8 "u1" dinaU).2.cache ∧
    ("user:u1", "blob", 5) ∈ (DeleteUserByID stW8 "u1").2.cache :=
  (updateDelete_cache_frame hashW stW8 "u1" dinaU).2.2 ("user:u1", "blob", 5)
    (by simp [stW8])

/-- C2: for a user id the repository resolves, `GetUserByID` returns the
stored user whenever the cache does not produce a deserializable hit —
covering a transport error on the cache read, a serialization failure
(the `serialize` component is arbitrary) and a transport failure of the
cache write (the `cacheSetOk` component is arbitrary).  No cache error is
surfaced. -/
theorem getUserByID_resilient (env : GetEnv) (userID : String) (u : User)
    (h : userID ≠ "") (hmiss : cacheMissLike env)
    (hrepo : env.repoGetUserByID userID = .found u) :
    (GetUserByID env userID).1 = .user u := by
  have hstore : (getFromStore env (userCacheKey userID) userID).1 = .user u := by
    cases hs : env.serialize u <;> simp [getFromStore, hrepo, hs]
  unfold GetUserByID
  rw [if_neg h]
  cases hcr : env.cacheRead with
  | hit v =>
    have hd : env.deserializeUser v = none := by
      simpa [cacheMissLike, hcr] using hmiss
    simpa [hd] using hstore
  | redisNil => simpa using hstore
  | fail m => simpa using hstore

/-- Witness for C2: with the cache erroring on read, serialization
failing and the cache write transport down, the read still returns the
stored user. -/
theorem getUserByID_resilient_witness :
    (GetUserByID envW2 "u1").1 = .user dinaU :=
  getUserByID_resilient envW2 "u1" dinaU (by decide) trivial rfl

/-- C1: `GetUserByID` follows the cache-aside algorithm.  A deserializable
hit returns the cached user with no repository read and no cache write; an
undeserializable hit behaves exactly like a miss; when the store is
consulted and reports not found, the result is NotFound with no cache
write; when the store returns a user that serializes, the serialized
value is written under the key for that id with the fixed TTL and the
stored user is returned. -/
theorem getUserByID_cache_aside (env : GetEnv) (userID : String) (h : userID ≠ "") :
    (∀ v u, env.cacheRead = .hit v → env.deserializeUser v = some u →
      GetUserByID env userID = (.user u, ⟨true, false, none⟩)) ∧
    (∀ v, env.cacheRead = .hit v → env.deserializeUser v = none →
      GetUserByID env userID = GetUserByID { env with cacheRead := .redisNil } userID) ∧
    (cacheMissLike env → env.repoGetUserByID userID = .notFound →
      GetUserByID env userID = (.notFound, ⟨true, true, none⟩)) ∧
    (∀ u sv, cacheMissLike env → env.repoGetUserByID userID = .found u →
      env.serialize u = some sv →
      GetUserByID env userID =
        (.user u, ⟨true, true, some (userCacheKey userID, sv, cacheExpiration)⟩)) := by
  refine ⟨?_, ?_, ?_, ?_⟩
  · intro v u hv hd
    simp [GetUserByID, h, hv, hd]
  · intro v hv hd
    simp [GetUserByID, h, hv, hd]
    rfl
  · intro hmiss hrepo
    unfold GetUserByID
    rw [if_neg h]
    cases hcr : env.cacheRead with
    | hit v =>
      have hd : env.deserializeUser v = none := by
        simpa [cacheMissLike, hcr] using hmiss
      simp [hd, getFromStore, hrepo]
    | redisNil => simp [getFromStore, hrepo]
    | fail m => simp [getFromStore, hrepo]
  · intro u sv hmiss hrepo hser
    unfold GetUserByID
    rw [if_neg h]
    cases hcr : env.cacheRead with
    | hit v =>
      have hd : env.deserializeUser v = none := by
        simpa [cacheMissLike, hcr] using hmiss
      simp [hd, getFromStore, hrepo, hser]
    | redisNil => simp [getFromStore, hrepo, hser]
    | fail m => simp [getFromStore, hrepo, hser]

/-- Witness for C1: a deserializable cache hit is returned immediately,
with no repository read and no cache write. -/
theorem getUserByID_cache_aside_witness :
    GetUserByID envW1 "u1" = (.user dinaU, ⟨true, false, none⟩) :=
  (getUserByID_cache_aside envW1 "u1" (by decide)).1 "blob" dinaU rfl rfl

end Gopher

namespace Gopher

/-- C5: `CreateUser` fails with a distinct stable message for each violated
rule, with the store untouched and hashing not yet attempted: any empty
`FullName`, `Username` or `Password`; a username outside the character
class; a password shorter than 8 or longer than 15; a status outside
{Active, Inactive}; a role outside {Admin, Operator}.  The five messages
are pairwise distinct. -/
theorem createUser_validation (hash : String → Except String String)
    (s : Store) (body : User) :
    ((body.FullName = "" ∨ body.Username = "" ∨ body.Password = "") →
      CreateUser hash s body = ⟨.error "all fields must be provided", s, false⟩) ∧
    (body.FullName ≠ "" → body.Username ≠ "" → body.Password ≠ "" →
      usernameMatches body.Username = false →
      CreateUser hash s body = ⟨.error "username must contain only characters", s, false⟩) ∧
    (body.FullName ≠ "" → body.Password ≠ "" →
      usernameMatches body.Username = true →
      (body.Password.length < 8 ∨ body.Password.length > 15) →
      CreateUser hash s body = ⟨.error "password must be between 8 and 15 characters", s, false⟩) ∧
    (body.FullName ≠ "" → body.Password ≠ "" →
      usernameMatches body.Username = true →
      8 ≤ body.Password.length → body.Password.length ≤ 15 →
      body.Status ≠ Active → body.Status ≠ Inactive →
      CreateUser hash s body = ⟨.error "invalid status value", s, false⟩) ∧
    (body.FullName ≠ "" → body.Password ≠ "" →
      usernameMatches body.Username = true →
      8 ≤ body.Password.length → body.Password.length ≤ 15 →
      (body.Status = Active ∨ body.Status = Inactive) →
      body.Role ≠ Admin → body.Role ≠ Operator →
      CreateUser hash s body = ⟨.error "invalid role value", s, false⟩) ∧
    List.Pairwise (fun a b => a ≠ b)
      ["all fields must be provided", "username must contain only characters",
       "password must be between 8 and 15 characters", "invalid status value",
       "invalid role value"] := by
  have husr_ne : usernameMatches body.Username = true → body.Username ≠ "" := by
    intro hm he
    rw [he] at hm
    simp [usernameMatches] at hm
  refine ⟨?_, ?_, ?_, ?_, ?_, by decide⟩
  · rintro (h | h | h) <;> simp [CreateUser, h]
  · intro h1 h2 h3 hm
    simp [CreateUser, h1, h2, h3, hm]
  · intro h1 h3 hm hlen
    rcases hlen with hlt | hgt
    · simp [CreateUser, h1, husr_ne hm, h3, hm, hlt]
    · simp [CreateUser, h1, husr_ne hm, h3, hm, hgt]
  · intro h1 h3 hm hl8 hl15 hs1 hs2
    have hlt : ¬ body.Password.length < 8 := by omega
    have hgt : ¬ body.Password.length > 15 := by omega
    simp [CreateUser, h1, husr_ne hm, h3, hm, hlt, hgt, hs1, hs2]
  · intro h1 h3 hm hl8 hl15 hstat hr1 hr2
    have hlt : ¬ body.Password.length < 8 := by omega
    have hgt : ¬ body.Password.length > 15 := by omega
    rcases hstat with hs | hs <;>
      simp [CreateUser, h1, husr_ne hm, h3, hm, hlt, hgt, hs, hr1, hr2]

/-- Witness for C5: the username `bob123` fails with the character-class
message, before any hashing or store call. -/
theorem createUser_validation_witness :
    CreateUser hashW store0 bodyBadUser =
      ⟨.error "username must contain only characters", store0, false⟩ :=
  (createUser_validation hashW store0 bodyBadUser).2.1 (by decide) (by decide)
    (by decide) (by decide)

/-- Counterexample to C3: authentication failures are distinguishable.
With `alice` the only stored user, an unknown username yields the error
message `user not found` while a wrong password for `alice` yields
`incorrect password`, and the two messages differ. -/
theorem authenticate_distinguishable_cex :
    AuthenticateUser authRepoW compareW tokenW ⟨"", "", "nouser", "x", "", "", ""⟩ =
      .error "user not found" ∧
    AuthenticateUser authRepoW compareW tokenW
        ⟨"", "", "alice", "wrongpass", "", "", ""⟩ = .error "incorrect password" ∧
    "user not found" ≠ "incorrect password" :=
  ⟨rfl, rfl, by decide⟩

/-- C3 as amended: `AuthenticateUser` returns the error `user not found`
when the username does not resolve and the different error
`incorrect password` when the stored hash does not verify against the
supplied password, so the two failure causes are distinguishable to the
caller. -/
theorem authenticate_distinct_failures (repoGet : String → RepoResult)
    (cmp : String → String → Bool) (tok : User → Except String String)
    (body : User) :
    (repoGet body.Username = .notFound →
      AuthenticateUser repoGet cmp tok body = .error "user not found") ∧
    (∀ u, repoGet body.Username = .found u → cmp u.Password body.Password = false →
      AuthenticateUser repoGet cmp tok body = .error "incorrect password") ∧
    "user not found" ≠ "incorrect password" := by
  refine ⟨?_, ?_, by decide⟩
  · intro h
    simp [AuthenticateUser, h]
  · intro u h hc
    simp [AuthenticateUser, h, hc]

/-- Witness for the amended C3: a username absent from the store yields
the not-found message. -/
theorem authenticate_distinct_failures_witness :
    AuthenticateUser authRepoW compareW tokenW ⟨"", "", "zed", "x", "", "", ""⟩ =
      .error "user not found" :=
  (authenticate_distinct_failures authRepoW compareW tokenW
    ⟨"", "", "zed", "x", "", "", ""⟩).1 rfl

/-- Counterexample to C9: deleting a missing user returns the same nil
error as deleting an existing one.  `DeleteUserByID` on an empty store
and on a store that really held the user both return `none`, so the
caller cannot tell that nothing was deleted. -/
theorem delete_notFound_indistinct_cex :
    (DeleteUserByID stNo "u1").1 = none ∧
    (DeleteUserByID stYes "u1").1 = none ∧
    (DeleteUserByID stYes "u1").2.store.getById "u1" = none ∧
    (DeleteUserByID stNo "u1").1 = (DeleteUserByID stYes "u1").1 :=
  ⟨rfl, rfl, rfl, rfl⟩

/-- C9 as amended: for a nonempty id, `DeleteUserByID` returns the nil
error both when no user with that id exists (leaving the state unchanged)
and when the user exists (after removing it from the store); the
not-found case is not distinguished from success in the returned value. -/
theorem delete_semantics (st : SysState) (userID : String) (h : userID ≠ "") :
    (st.store.getById userID = none → DeleteUserByID st userID = (none, st)) ∧
    (∀ u, st.store.getById userID = some u →
      DeleteUserByID st userID = (none, ⟨st.store.deleteUser u, st.cache⟩)) := by
  constructor
  · intro hn
    simp [DeleteUserByID, h, hn]
  · intro u hu
    simp [DeleteUserByID, h, hu]

/-- Witness for the amended C9: deleting the one stored user succeeds
with the nil error and removes the record. -/
theorem delete_semantics_witness :
    DeleteUserByID stYes "u1" = (none, ⟨stYes.store.deleteUser dinaU, stYes.cache⟩) :=
  (delete_semantics stYes "u1" (by decide)).2 dinaU rfl

/-- Counterexample to C6: `UpdateUserByID` performs no status validation.
Updating the stored user with status `Pending` succeeds and persists a
record whose status is outside {Active, Inactive}. -/
theorem update_skips_enum_validation_cex :
    (UpdateUserByID hashW stYes "u1" bodyPending).1 =
      .user { dinaU with Status := "Pending" } ∧
    (UpdateUserByID hashW stYes "u1" bodyPending).2.store.getById "u1" =
      some { dinaU with Status := "Pending" } ∧
    "Pending" ≠ Active ∧ "Pending" ≠ Inactive :=
  ⟨rfl, rfl, by decide, by decide⟩

/-- C6 as amended: only `CreateUser` enforces the enumerations — any user
it successfully stores has status in {Active, Inactive} and role in
{Admin, Operator} — while `UpdateUserByID` validates neither field and
persists whatever non-empty status and role the body supplies. -/
theorem status_role_enforced_only_on_create (hash : String → Except String String)
    (s : Store) (body : User) (st : SysState) (userID : String) (body2 : User) :
    (∀ u s2 b, CreateUser hash s body = ⟨.ok u, s2, b⟩ →
      (u.Status = Active ∨ u.Status = Inactive) ∧
      (u.Role = Admin ∨ u.Role = Operator) ∧
      s2.users = s.users ++ [u]) ∧
    (userID ≠ "" → ∀ u0, st.store.getById userID = some u0 →
      body2.Password = "" → body2.Status ≠ "" → body2.Role ≠ "" →
      ∃ u1, (UpdateUserByID hash st userID body2).1 = .user u1 ∧
        u1.Status = body2.Status ∧ u1.Role = body2.Role ∧
        (UpdateUserByID hash st userID body2).2.store = st.store.update u1) := by
  constructor
  · intro u s2 b heq
    unfold CreateUser at heq
    repeat' split at heq
    all_goals simp_all [Store.create]
    obtain ⟨h1, h2, -⟩ := heq
    subst h1
    subst h2
    refine ⟨?_, ?_, by simp⟩ <;> tauto
  · intro hid u0 hu0 hpw hst hrl
    simp only [UpdateUserByID, hid, if_neg, hu0]
    simp [hid, hu0, hpw, hst, hrl]

/-- Witness for the amended C6: a successfully created user carries
in-range status and role and is appended to the store. -/
theorem status_role_enforced_only_on_create_witness :
    (annU.Status = Active ∨ annU.Status = Inactive) ∧
    (annU.Role = Admin ∨ annU.Role = Operator) ∧
    ((CreateUser hashW store0 bodyOK6).store).users = store0.users ++ [annU] :=
  (status_role_enforced_only_on_create hashW store0 bodyOK6 stNo "u1"
    bodyPending).1 annU (CreateUser hashW store0 bodyOK6).store true rfl

end Gopher

namespace Gopher

/-- Counterexample to C7: a field present (non-empty) in the partial
input is not always applied.  A body carrying only a new profile picture
leaves the stored user entirely unchanged: `UpdateUserByID` never reads
`ProfilePicture` from the body. -/
theorem update_ignores_profilePicture_cex :
    bodyPic.ProfilePicture ≠ "" ∧
    UpdateUserByID hashW stPic "u2" bodyPic =
      (.user dinaPic, ⟨stPic.store.update dinaPic, stPic.cache⟩) ∧
    dinaPic.ProfilePicture ≠ bodyPic.ProfilePicture :=
  ⟨by decide, rfl, by decide⟩

/-- C7 as amended: for an existing id, `UpdateUserByID` fetches the
current record via the repository (uncached), overwrites exactly the
non-empty fields among `FullName`, `Username`, `Password` (re-hashed),
`Status` and `Role`, keeps every other field — including
`ProfilePicture`, which is ignored even when supplied — at the prior
value, persists the result and returns it. -/
theorem updateUser_field_semantics (hash : String → Except String String)
    (st : SysState) (userID : String) (body : User) (u0 : User) (hp : String)
    (hid : userID ≠ "") (hfound : st.store.getById userID = some u0)
    (hhash : body.Password = "" ∨ hash body.Password = .ok hp) :
    ∃ u1, UpdateUserByID hash st userID body =
        (.user u1, ⟨st.store.update u1, st.cache⟩) ∧
      u1.id = u0.id ∧
      u1.FullName = (if body.FullName = "" then u0.FullName else body.FullName) ∧
      u1.Username = (if body.Username = "" then u0.Username else body.Username) ∧
      u1.Password = (if body.Password = "" then u0.Password else hp) ∧
      u1.Status = (if body.Status = "" then u0.Status else body.Status) ∧
      u1.Role = (if body.Role = "" then u0.Role else body.Role) ∧
      u1.ProfilePicture = u0.ProfilePicture := by
  refine ⟨{ id := u0.id,
            FullName := if body.FullName = "" then u0.FullName else body.FullName,
            Username := if body.Username = "" then u0.Username else body.Username,
            Password := if body.Password = "" then u0.Password else hp,
            Status := if body.Status = "" then u0.Status else body.Status,
            Role := if body.Role = "" then u0.Role else body.Role,
            ProfilePicture := u0.ProfilePicture },
          ?_, rfl, rfl, rfl, rfl, rfl, rfl, rfl⟩
  by_cases hP : body.Password = ""
  · by_cases hF : body.FullName = "" <;> by_cases hU : body.Username = "" <;>
      by_cases hS : body.Status = "" <;> by_cases hR : body.Role = "" <;>
      simp [UpdateUserByID, hid, hfound, hP, hF, hU, hS, hR]
  · have hok : hash body.Password = .ok hp := hhash.resolve_left hP
    by_cases hF : body.FullName = "" <;> by_cases hU : body.Username = "" <;>
      by_cases hS : body.Status = "" <;> by_cases hR : body.Role = "" <;>
      simp [UpdateUserByID, Except.map, hid, hfound, hP, hok, hF, hU, hS, hR]

/-- Witness for the amended C7: updating full name and password changes
those two fields, re-hashes the password, and keeps username, status,
role and profile picture at their prior values. -/
theorem updateUser_field_semantics_witness :
    ∃ u1, UpdateUserByID hashW stPic "u2" bodyMix =
        (.user u1, ⟨stPic.store.update u1, stPic.cache⟩) ∧
      u1.id = dinaPic.id ∧
      u1.FullName =
        (if bodyMix.FullName = "" then dinaPic.FullName else bodyMix.FullName) ∧
      u1.Username =
        (if bodyMix.Username = "" then dinaPic.Username else bodyMix.Username) ∧
      u1.Password =
        (if bodyMix.Password = "" then dinaPic.Password else "H:newpass12345") ∧
      u1.Status = (if bodyMix.Status = "" then dinaPic.Status else bodyMix.Status) ∧
      u1.Role = (if bodyMix.Role = "" then dinaPic.Role else bodyMix.Role) ∧
      u1.ProfilePicture = dinaPic.ProfilePicture :=
  updateUser_field_semantics hashW stPic "u2" bodyMix dinaPic "H:newpass12345"
    (by decide) rfl (Or.inr rfl)

/-- Helper: looking up the freshly appended user finds it, provided no
earlier record carries the same id. -/
theorem getById_append (l : List User) (u : User) (nId : Nat)
    (hfresh : ∀ v ∈ l, v.id ≠ u.id) :
    Store.getById ⟨l ++ [u], nId⟩ u.id = some u := by
  induction l with
  | nil => simp [Store.getById]
  | cons v t ih =>
    have hv : v.id ≠ u.id := hfresh v (List.mem_cons_self v t)
    have ih2 := ih (fun w hw => hfresh w (List.mem_cons_of_mem v hw))
    simpa [Store.getById, List.find?_cons_of_neg, hv] using ih2

/-- Helper: a store-assigned id is never the empty string. -/
theorem prefixed_id_ne_empty (n : Nat) : ("u" ++ toString n) ≠ "" := by
  intro h
  have h2 := congrArg String.length h
  simp [String.length_append] at h2
  exact absurd h2.1 (by decide)

/-- Counterexample to C4: the profile picture of a valid create input is
not reproduced by create-then-read.  `bodyW4` passes validation and
carries `pic.png`, yet the created and re-read user has an empty
`ProfilePicture`. -/
theorem create_then_read_pic_cex :
    (CreateUser hashW store0 bodyW4).result = .ok createdW4 ∧
    (GetUserByID readEnvW4 "u1").1 = .user createdW4 ∧
    bodyW4.ProfilePicture = "pic.png" ∧
    createdW4.ProfilePicture ≠ bodyW4.ProfilePicture :=
  ⟨rfl, rfl, rfl, by decide⟩

/-- C4 as amended: for every valid create input, create followed by a
cold-cache read of the new id returns a user whose `FullName`,
`Username`, `Status` and `Role` match the input, whose `ProfilePicture`
is empty (create never copies it), and whose password field holds the
hash: it never equals the plaintext and verifies against it. -/
theorem create_then_read_fields (hash : String → Except String String)
    (verify : String → String → Bool) (s : Store) (body : User) (hp : String)
    (hfull : body.FullName ≠ "")
    (husr : usernameMatches body.Username = true)
    (hlen8 : 8 ≤ body.Password.length) (hlen15 : body.Password.length ≤ 15)
    (hstat : body.Status = Active ∨ body.Status = Inactive)
    (hrole : body.Role = Admin ∨ body.Role = Operator)
    (hhash : hash body.Password = .ok hp)
    (hne : hp ≠ body.Password) (hver : verify body.Password hp = true)
    (hfresh : ∀ v ∈ s.users, v.id ≠ "u" ++ toString s.nextId) :
    ∃ u s2, CreateUser hash s body = ⟨.ok u, s2, true⟩ ∧
      u.FullName = body.FullName ∧ u.Username = body.Username ∧
      u.Status = body.Status ∧ u.Role = body.Role ∧
      u.ProfilePicture = "" ∧
      u.Password = hp ∧ u.Password ≠ body.Password ∧
      verify body.Password u.Password = true ∧
      ∀ ds ser wOk,
        (GetUserByID ⟨.redisNil, ds, ser, storeRepoGet s2, wOk⟩ u.id).1 = .user u := by
  have hu_ne : body.Username ≠ "" := by
    intro he
    rw [he] at husr
    simp [usernameMatches] at husr
  have hpw_ne : body.Password ≠ "" := by
    intro he
    rw [he] at hlen8
    exact absurd hlen8 (by decide)
  have hlt : ¬ body.Password.length < 8 := by omega
  have hgt : ¬ body.Password.length > 15 := by omega
  have hc4 : (body.Status != Active && body.Status != Inactive) = false := by
    rcases hstat with hs | hs <;> simp [hs]
  have hc5 : (body.Role != Admin && body.Role != Operator) = false := by
    rcases hrole with hr | hr <;> simp [hr]
  have hred : CreateUser hash s body =
      ⟨.ok ⟨"u" ++ toString s.nextId, body.FullName, body.Username, hp,
            body.Status, body.Role, ""⟩,
       ⟨s.users ++ [⟨"u" ++ toString s.nextId, body.FullName, body.Username, hp,
            body.Status, body.Role, ""⟩], s.nextId + 1⟩, true⟩ := by
    simp [CreateUser, hfull, hu_ne, hpw_ne, husr, hlt, hgt, hc4, hc5, hhash,
      Store.create]
  refine ⟨_, _, hred, rfl, rfl, rfl, rfl, rfl, rfl, hne, hver, ?_⟩
  intro ds ser wOk
  have hfind : Store.getById
      ⟨s.users ++ [⟨"u" ++ toString s.nextId, body.FullName, body.Username, hp,
          body.Status, body.Role, ""⟩], s.nextId + 1⟩
      ("u" ++ toString s.nextId) =
      some ⟨"u" ++ toString s.nextId, body.FullName, body.Username, hp,
          body.Status, body.Role, ""⟩ :=
    getById_append s.users _ _ (fun v hv => hfresh v hv)
  have hidne := prefixed_id_ne_empty s.nextId
  cases hser : ser ⟨"u" ++ toString s.nextId, body.FullName, body.Username, hp,
      body.Status, body.Role, ""⟩ <;>
    simp [GetUserByID, hidne, getFromStore, storeRepoGet, hfind, hser]

/-- Witness for the amended C4: creating `bodyOK4` in the empty store and
re-reading the new id reproduces every field, with the password hashed
and verifying. -/
theorem create_then_read_fields_witness :
    ∃ u s2, CreateUser hashW store0 bodyOK4 = ⟨.ok u, s2, true⟩ ∧
      u.FullName = bodyOK4.FullName ∧ u.Username = bodyOK4.Username ∧
      u.Status = bodyOK4.Status ∧ u.Role = bodyOK4.Role ∧
      u.ProfilePicture = "" ∧
      u.Password = "H:password1" ∧ u.Password ≠ bodyOK4.Password ∧
      verifyW bodyOK4.Password u.Password = true ∧
      ∀ ds ser wOk,
        (GetUserByID ⟨.redisNil, ds, ser, storeRepoGet s2, wOk⟩ u.id).1 = .user u :=
  create_then_read_fields hashW verifyW store0 bodyOK4 "H:password1"
    (by decide) (by decide) (by decide) (by decide) (Or.inl rfl) (Or.inr rfl)
    rfl (by decide) rfl (by simp [store0])

end Gopher
